import Mathlib

/-!
Verification development for `bilibili_api/article.py`: the rich-text article
converter (HTML-like markup tree to typed node tree, rendered to Markdown or
JSON) and the `Article` facade with its fetch/parse/render lifecycle.

Python strings are modelled as `String`/`List Char`; Python exceptions as an
explicit `Exn` error type threaded through `Except`; in-place mutation of node
objects during rendering as state passing (each operation returns the updated
node next to its result).  Library collaborators that the source calls
(`html.unescape`, `urllib.parse.unquote`, `yarl.URL(...).scheme`, `int(...)`,
`str.replace`, regular expressions) are modelled by explicit executable
functions directly below, each restricted to the behavior the source relies on.
-/

/-- Membership of one character list as a contiguous substring of another,
modelling the Python `needle in haystack` test on `str`. -/
def listHasSub (needle : List Char) : List Char → Bool
  | [] => needle.isEmpty
  | c :: r => List.isPrefixOf needle (c :: r) || listHasSub needle r

/-- Python substring containment `needle in hay` for `str` values. -/
def strContains (hay needle : String) : Bool :=
  listHasSub needle.data hay.data

/-- Everything after the first occurrence of `needle`, modelling group 1 of the
regex `needle(.*)` under `re.search` (leftmost match, greedy tail), `none` when
the regex does not match. -/
def afterFirst (needle : List Char) : List Char → Option (List Char)
  | [] => if needle.isEmpty then some [] else none
  | c :: r =>
    if List.isPrefixOf needle (c :: r) then some (List.drop needle.length (c :: r))
    else afterFirst needle r

/-- Two leading decimal digits of a character list, as a number. -/
def matchTwoDigits : List Char → Option Int
  | d1 :: d2 :: _ =>
    if d1.isDigit && d2.isDigit then
      some (((d1.toNat - 48) * 10 + (d2.toNat - 48) : Nat) : Int)
    else none
  | _ => none

/-- Leftmost match of the regex `font-size-(\d\d)` (used by the span parser),
returning the two-digit group. -/
def findFontSize : List Char → Option Int
  | [] => none
  | c :: r =>
    match (if List.isPrefixOf "font-size-".data (c :: r)
           then matchTwoDigits (List.drop 10 (c :: r)) else none) with
    | some n => some n
    | none => findFontSize r

/-- Python `str.replace` for a single-character pattern. -/
def charRepl (pat : Char) (repl : List Char) : List Char → List Char
  | [] => []
  | c :: r => (if c = pat then repl else [c]) ++ charRepl pat repl r

/-- ASCII whitespace as stripped by Python `str.strip()`. -/
def isPySpace (c : Char) : Bool :=
  c = ' ' || c = '\t' || c = '\n' || c = '\r' || c = Char.ofNat 11 || c = Char.ofNat 12

/-- Python `s.lstrip().rstrip()` (as used by the bold renderer), restricted to
ASCII whitespace. -/
def pyStrip (s : String) : String :=
  String.mk (((s.data.dropWhile isPySpace).reverse.dropWhile isPySpace).reverse)

/-- Value of a nonempty all-digit character list, `none` otherwise. -/
def digitsVal : List Char → Option Nat
  | [] => none
  | l =>
    if l.all Char.isDigit then
      some (l.foldl (fun a c => a * 10 + (c.toNat - 48)) 0)
    else none

/-- Python `int(s)`: optional surrounding whitespace, optional sign, decimal
digits; `none` models the `ValueError` raised on anything else. -/
def pyInt (s : String) : Option Int :=
  match (pyStrip s).data with
  | '-' :: r => (digitsVal r).map fun n => -(n : Int)
  | '+' :: r => (digitsVal r).map fun n => (n : Int)
  | r => (digitsVal r).map fun n => (n : Int)

/-- Value of one hexadecimal digit. -/
def hexVal (c : Char) : Option Nat :=
  if c.isDigit then some (c.toNat - 48)
  else if 'a' ≤ c && c ≤ 'f' then some (c.toNat - 87)
  else if 'A' ≤ c && c ≤ 'F' then some (c.toNat - 55)
  else none

/-- Python `urllib.parse.unquote`, modelling single-byte percent escapes;
malformed escapes pass through unchanged, as in the source library. -/
def pyUnquote : List Char → List Char
  | [] => []
  | '%' :: a :: b :: r =>
    match hexVal a, hexVal b with
    | some x, some y => Char.ofNat (16 * x + y) :: pyUnquote r
    | _, _ => '%' :: pyUnquote (a :: b :: r)
  | c :: r => c :: pyUnquote r

/-- Python `html.unescape`, modelling the named character references relevant
here (`amp`, `lt`, `gt`, `quot`, `#39`); all other text passes through
unchanged.  Like the library function it makes a single left-to-right pass, so
it is not idempotent: `&amp;amp;` becomes `&amp;`, which unescapes again. -/
def htmlUnescape : List Char → List Char
  | [] => []
  | '&' :: 'a' :: 'm' :: 'p' :: ';' :: r => '&' :: htmlUnescape r
  | '&' :: 'l' :: 't' :: ';' :: r => '<' :: htmlUnescape r
  | '&' :: 'g' :: 't' :: ';' :: r => '>' :: htmlUnescape r
  | '&' :: 'q' :: 'u' :: 'o' :: 't' :: ';' :: r => '"' :: htmlUnescape r
  | '&' :: '#' :: '3' :: '9' :: ';' :: r => Char.ofNat 39 :: htmlUnescape r
  | c :: r => c :: htmlUnescape r

/-- String version of `htmlUnescape`. -/
def htmlUnescapeStr (s : String) : String :=
  String.mk (htmlUnescape s.data)

/-- Characters permitted inside a URL scheme. -/
def isSchemeChar (c : Char) : Bool :=
  c.isAlphanum || c = '+' || c = '-' || c = '.'

/-- Scan for the candidate scheme: the characters before the first `:`,
provided that `:` occurs before any `/`, `?` or `#` (and before the end). -/
def urlSchemeAux (acc : List Char) : List Char → Option (List Char)
  | [] => none
  | ':' :: _ => some acc.reverse
  | '/' :: _ => none
  | '?' :: _ => none
  | '#' :: _ => none
  | c :: r => urlSchemeAux (c :: acc) r

/-- Scheme of a URL as `yarl.URL(u).scheme` reports it: the characters before
the first `:` when they form a valid scheme name occurring before any `/`, `?`
or `#`; otherwise the empty string (in particular `""` for protocol-relative
URLs such as `//host/path`). -/
def urlScheme (u : String) : String :=
  match urlSchemeAux [] u.data with
  | none => ""
  | some [] => ""
  | some (c :: cs) =>
    if c.isAlpha && (c :: cs).all isSchemeChar then String.mk (c :: cs) else ""

/-- Python values stored in the JSON dictionaries produced by the `json`
renderers.  `tag` stands for a non-string markup object that the parser can
leak into a node field (for example a nested element stored as an image
caption), which Python would keep in the dict as-is. -/
inductive Json where
  | null
  | str (s : String)
  | int (n : Int)
  | bool (b : Bool)
  | arr (xs : List Json)
  | obj (fs : List (String × Json))
  | tag

/-- A Python value expected to be a string: either an actual string or a markup
element object (on which string methods raise `AttributeError`). -/
inductive PyStr where
  | s (v : String)
  | tagObj
deriving DecidableEq, Repr

/-- Python exceptions raised by the article module. -/
inductive Exn where
  | apiException (msg : String)
  | keyError (key : String)
  | typeError
  | valueError
  | attributeError
  | indexError
deriving DecidableEq, Repr

/-- The fixed color-name table `ARTICLE_COLOR_MAP` of the source. -/
def ARTICLE_COLOR_MAP : List (String × String) :=
  [("default", "222222"),
   ("blue-01", "56c1fe"), ("lblue-01", "73fdea"), ("green-01", "89fa4e"),
   ("yellow-01", "fff359"), ("pink-01", "ff968d"), ("purple-01", "ff8cc6"),
   ("blue-02", "02a2ff"), ("lblue-02", "18e7cf"), ("green-02", "60d837"),
   ("yellow-02", "fbe231"), ("pink-02", "ff654e"), ("purple-02", "ef5fa8"),
   ("blue-03", "0176ba"), ("lblue-03", "068f86"), ("green-03", "1db100"),
   ("yellow-03", "f8ba00"), ("pink-03", "ee230d"), ("purple-03", "cb297a"),
   ("blue-04", "004e80"), ("lblue-04", "017c76"), ("green-04", "017001"),
   ("yellow-04", "ff9201"), ("pink-04", "b41700"), ("purple-04", "99195e"),
   ("gray-01", "d6d5d5"), ("gray-02", "929292"), ("gray-03", "5f5f5f")]

/-- Dictionary indexing `ARTICLE_COLOR_MAP[name]`, `none` modelling `KeyError`. -/
def colorLookup (name : String) : Option String :=
  ARTICLE_COLOR_MAP.lookup name

/-- The node tree: one constructor per node class of the source, carrying that
class's constructed fields.  `image.url` is optional because the bare `<img>`
branch stores `attrs.get("data-src")`, which may be `None`. -/
inductive Node where
  | text (text : String)
  | paragraph (align : String) (children : List Node)
  | heading (children : List Node)
  | blockquote (children : List Node)
  | italic (children : List Node)
  | bold (children : List Node)
  | del (children : List Node)
  | underline (children : List Node)
  | ul (children : List Node)
  | ol (children : List Node)
  | li (children : List Node)
  | color (color : String) (children : List Node)
  | fontSize (size : Int) (children : List Node)
  | image (url : Option String) (alt : PyStr)
  | latex (code : String)
  | code (code : String) (lang : String)
  | videoCard (aid : Int)
  | articleCard (cvid : Int)
  | bangumiCard (epid : Int)
  | musicCard (auid : Int)
  | shopCard (pwid : Int)
  | comicCard (mcid : Int)
  | liveCard (roomId : Int)
  | anchor (url : String) (text : PyStr)
  | separator

/-- Concatenation of a list of strings, Python `"".join`. -/
def concatAll : List String → String
  | [] => ""
  | s :: r => s ++ concatAll r

/-- Python `str.split` with a one-character separator (the only separators the
source uses); like Python, splitting the empty string yields `[""]`. -/
def pySplitChar (sep : Char) : List Char → List (List Char)
  | [] => [[]]
  | c :: r =>
    let rest := pySplitChar sep r
    if c = sep then [] :: rest
    else
      match rest with
      | [] => [[c]]
      | h :: t => (c :: h) :: t

/-- String version of `pySplitChar`. -/
def pySplit (sep : Char) (s : String) : List String :=
  (pySplitChar sep s.data).map String.mk

/-- Python `sep.join(parts)`. -/
def joinSep (sep : String) : List String → String
  | [] => ""
  | [s] => s
  | s :: r => s ++ sep ++ joinSep sep r

/-- Python `str.lower()` (ASCII case folding). -/
def pyLower (s : String) : String :=
  String.mk (s.data.map Char.toLower)

/-- The character-replacement pipeline of `TextNode.markdown`, in source order:
tab to space, space and the non-breaking space U+00A0 to `&emsp;`, then each
markdown-significant character prefixed with a backslash (backslash first, so
the introduced escapes are never escaped again). -/
def escPipe (l : List Char) : List Char :=
  let l := charRepl '\t' [' '] l
  let l := charRepl ' ' "&emsp;".data l
  let l := charRepl (Char.ofNat 160) "&emsp;".data l
  let l := charRepl '\\' ['\\', '\\'] l
  let l := charRepl '*' ['\\', '*'] l
  let l := charRepl '$' ['\\', '$'] l
  let l := charRepl '<' ['\\', '<'] l
  let l := charRepl '>' ['\\', '>'] l
  let l := charRepl '|' ['\\', '|'] l
  let l := charRepl '~' ['\\', '~'] l
  charRepl '_' ['\\', '_'] l

/-- Rendering of a text node, `TextNode.markdown`. -/
def textMarkdown (s : String) : String :=
  String.mk (escPipe s.data)

/-- Numbered list items, `f"{i + 1}. {item}"` over an enumeration. -/
def numberItems (i : Nat) : List String → List String
  | [] => []
  | s :: r => (toString i ++ ". " ++ s) :: numberItems (i + 1) r

/-- The `alt.replace("[", "\\[")` escaping of image captions and anchor text. -/
def escBracket (s : String) : String :=
  String.mk (charRepl '[' ['\\', '['] s.data)

/-- Value of a `PyStr` as it appears inside a returned JSON dictionary. -/
def PyStr.toJson : PyStr → Json
  | .s v => .str v
  | .tagObj => .tag

mutual

/-- The `markdown` method of each node class, returning the rendered text and
the node as left after the call (the source mutates `ImageNode.url` and
`CodeNode.code` in place, so those fields change on first render).  Failures
are Python exceptions: a `None` url (`yarl.URL(None)` raises `TypeError`) or a
markup object where a string is expected (`AttributeError`).  When a child's
render raises inside a container, the in-place updates of siblings rendered
before the failure are not threaded out; no property stated below observes
them. -/
def Node.markdown : Node → Except Exn (String × Node)
  | .text t => .ok (textMarkdown t, .text t)
  | .paragraph align cs => do
    let (parts, cs2) ← mdChildren cs
    .ok (concatAll parts ++ "\n\n", .paragraph align cs2)
  | .heading cs => do
    let (parts, cs2) ← mdChildren cs
    let t := concatAll parts
    .ok (if t.length = 0 then "" else "## " ++ t ++ "\n\n", .heading cs2)
  | .blockquote cs => do
    let (parts, cs2) ← mdChildren cs
    let t := concatAll parts
    .ok (joinSep "\n" ((pySplit (Char.ofNat 10) t).map fun line => "> " ++ line) ++ "\n\n",
         .blockquote cs2)
  | .italic cs => do
    let (parts, cs2) ← mdChildren cs
    let t := concatAll parts
    .ok (if t.length = 0 then "" else " *" ++ t ++ "* ", .italic cs2)
  | .bold cs => do
    let (parts, cs2) ← mdChildren cs
    let t := concatAll parts
    .ok (if t.length = 0 then "" else " **" ++ pyStrip t ++ "** ", .bold cs2)
  | .del cs => do
    let (parts, cs2) ← mdChildren cs
    let t := concatAll parts
    .ok (if t.length = 0 then "" else " ~~" ++ t ++ "~~ ", .del cs2)
  | .underline cs => do
    let (parts, cs2) ← mdChildren cs
    let t := concatAll parts
    .ok (if t.length = 0 then "" else " $\\underline\x7b" ++ t ++ "\x7d$ ", .underline cs2)
  | .ul cs => do
    let (parts, cs2) ← mdChildren cs
    .ok (joinSep "\n" (parts.map fun p => "- " ++ p), .ul cs2)
  | .ol cs => do
    let (parts, cs2) ← mdChildren cs
    .ok (joinSep "\n" (numberItems 1 parts), .ol cs2)
  | .li cs => do
    let (parts, cs2) ← mdChildren cs
    .ok (concatAll parts, .li cs2)
  | .color col cs => do
    let (parts, cs2) ← mdChildren cs
    .ok (concatAll parts, .color col cs2)
  | .fontSize sz cs => do
    let (parts, cs2) ← mdChildren cs
    .ok (concatAll parts, .fontSize sz cs2)
  | .image url alt =>
    match url with
    | none => .error .typeError
    | some u =>
      let u2 := if urlScheme u = "" then "https:" ++ u else u
      match alt with
      | .tagObj => .error .attributeError
      | .s a => .ok ("![" ++ escBracket a ++ "](" ++ u2 ++ ")\n\n", .image (some u2) alt)
  | .latex c =>
    .ok (if strContains c "\n" then "$$\n" ++ c ++ "\n$$" else "$" ++ c ++ "$", .latex c)
  | .code c lang =>
    let c2 := htmlUnescapeStr c
    .ok ("```" ++ lang ++ "\n" ++ c2 ++ "\n```\n\n", .code c2 lang)
  | .videoCard aid =>
    .ok ("[视频 av" ++ toString aid ++ "](https://www.bilibili.com/av" ++ toString aid
          ++ ")\n\n", .videoCard aid)
  | .articleCard cvid =>
    .ok ("[文章 cv" ++ toString cvid ++ "](https://www.bilibili.com/read/cv" ++ toString cvid
          ++ ")\n\n", .articleCard cvid)
  | .bangumiCard epid =>
    .ok ("[番剧 ep" ++ toString epid ++ "](https://www.bilibili.com/bangumi/play/ep"
          ++ toString epid ++ ")\n\n", .bangumiCard epid)
  | .musicCard auid =>
    .ok ("[音乐 au" ++ toString auid ++ "](https://www.bilibili.com/audio/au" ++ toString auid
          ++ ")\n\n", .musicCard auid)
  | .shopCard pwid =>
    .ok ("[会员购 " ++ toString pwid ++ "](https://show.bilibili.com/platform/detail.html?id="
          ++ toString pwid ++ ")\n\n", .shopCard pwid)
  | .comicCard mcid =>
    .ok ("[漫画 mc" ++ toString mcid ++ "](https://manga.bilibili.com/m/detail/mc"
          ++ toString mcid ++ ")\n\n", .comicCard mcid)
  | .liveCard roomId =>
    .ok ("[直播 " ++ toString roomId ++ "](https://live.bilibili.com/" ++ toString roomId
          ++ ")\n\n", .liveCard roomId)
  | .anchor url t =>
    match t with
    | .tagObj => .error .attributeError
    | .s v => .ok ("[" ++ escBracket v ++ "](" ++ url ++ ")", .anchor url t)
  | .separator => .ok ("\n------\n", .separator)

/-- Sequential rendering of a child list, one string per child. -/
def mdChildren : List Node → Except Exn (List String × List Node)
  | [] => .ok ([], [])
  | n :: r => do
    let (t, n2) ← n.markdown
    let (ts, r2) ← mdChildren r
    .ok (t :: ts, n2 :: r2)

end

mutual

/-- The `json` method of each node class: the returned dictionary and the node
as left after the call (the source rewrites `ImageNode.url` and
`CodeNode.code` in place during `json` as well, and `json` has no counterpart
of the markdown facade's per-child exception suppression). -/
def Node.json : Node → Except Exn (Json × Node)
  | .text t => .ok (.obj [("type", .str "TextNode"), ("text", .str t)], .text t)
  | .paragraph align cs => do
    let (js, cs2) ← jsonChildren cs
    -- the source serializes only `type` and `children`; `align` is not emitted
    .ok (.obj [("type", .str "ParagraphNode"), ("children", .arr js)], .paragraph align cs2)
  | .heading cs => do
    let (js, cs2) ← jsonChildren cs
    .ok (.obj [("type", .str "HeadingNode"), ("children", .arr js)], .heading cs2)
  | .blockquote cs => do
    let (js, cs2) ← jsonChildren cs
    .ok (.obj [("type", .str "BlockquoteNode"), ("children", .arr js)], .blockquote cs2)
  | .italic cs => do
    let (js, cs2) ← jsonChildren cs
    .ok (.obj [("type", .str "ItalicNode"), ("children", .arr js)], .italic cs2)
  | .bold cs => do
    let (js, cs2) ← jsonChildren cs
    .ok (.obj [("type", .str "BoldNode"), ("children", .arr js)], .bold cs2)
  | .del cs => do
    let (js, cs2) ← jsonChildren cs
    .ok (.obj [("type", .str "DelNode"), ("children", .arr js)], .del cs2)
  | .underline cs => do
    let (js, cs2) ← jsonChildren cs
    .ok (.obj [("type", .str "UnderlineNode"), ("children", .arr js)], .underline cs2)
  | .ul cs => do
    let (js, cs2) ← jsonChildren cs
    .ok (.obj [("type", .str "UlNode"), ("children", .arr js)], .ul cs2)
  | .ol cs => do
    let (js, cs2) ← jsonChildren cs
    .ok (.obj [("type", .str "OlNode"), ("children", .arr js)], .ol cs2)
  | .li cs => do
    let (js, cs2) ← jsonChildren cs
    .ok (.obj [("type", .str "LiNode"), ("children", .arr js)], .li cs2)
  | .color col cs => do
    let (js, cs2) ← jsonChildren cs
    .ok (.obj [("type", .str "ColorNode"), ("color", .str col), ("children", .arr js)],
         .color col cs2)
  | .fontSize sz cs => do
    let (js, cs2) ← jsonChildren cs
    .ok (.obj [("type", .str "FontSizeNode"), ("size", .int sz), ("children", .arr js)],
         .fontSize sz cs2)
  | .image url alt =>
    match url with
    | none => .error .typeError
    | some u =>
      let u2 := if urlScheme u = "" then "https:" ++ u else u
      .ok (.obj [("type", .str "ImageNode"), ("url", .str u2), ("alt", alt.toJson)],
           .image (some u2) alt)
  | .latex c => .ok (.obj [("type", .str "LatexNode"), ("code", .str c)], .latex c)
  | .code c lang =>
    let c2 := htmlUnescapeStr c
    .ok (.obj [("type", .str "CodeNode"), ("code", .str c2), ("lang", .str lang)],
         .code c2 lang)
  | .videoCard aid =>
    .ok (.obj [("type", .str "VideoCardNode"), ("aid", .int aid)], .videoCard aid)
  | .articleCard cvid =>
    .ok (.obj [("type", .str "ArticleCardNode"), ("cvid", .int cvid)], .articleCard cvid)
  | .bangumiCard epid =>
    .ok (.obj [("type", .str "BangumiCardNode"), ("epid", .int epid)], .bangumiCard epid)
  | .musicCard auid =>
    .ok (.obj [("type", .str "MusicCardNode"), ("auid", .int auid)], .musicCard auid)
  | .shopCard pwid =>
    .ok (.obj [("type", .str "ShopCardNode"), ("pwid", .int pwid)], .shopCard pwid)
  | .comicCard mcid =>
    .ok (.obj [("type", .str "ComicCardNode"), ("mcid", .int mcid)], .comicCard mcid)
  | .liveCard roomId =>
    .ok (.obj [("type", .str "LiveCardNode"), ("room_id", .int roomId)], .liveCard roomId)
  | .anchor url t =>
    .ok (.obj [("type", .str "AnchorNode"), ("url", .str url), ("text", t.toJson)],
         .anchor url t)
  | .separator => .ok (.obj [("type", .str "SeparatorNode")], .separator)

/-- Sequential `json` of a child list, `list(map(lambda x: x.json(), ...))`. -/
def jsonChildren : List Node → Except Exn (List Json × List Node)
  | [] => .ok ([], [])
  | n :: r => do
    let (j, n2) ← n.json
    let (js, r2) ← jsonChildren r
    .ok (j :: js, n2 :: r2)

end

/-- Attributes of a markup element, projected to the keys the parser reads.
BeautifulSoup reports `class` as a list of class names and every other
attribute as a string; an absent key is `none` (dictionary indexing on an
absent key is a `KeyError`). -/
structure Attrs where
  style : Option String := none
  classes : Option (List String) := none
  aid : Option String := none
  dataSrc : Option String := none
  href : Option String := none
  alt : Option String := none
  codecontent : Option String := none
  dataLang : Option String := none
deriving Repr

/-- A markup tree: a `NavigableString` or a tag element with attributes and an
ordered content list, as BeautifulSoup presents the article payload. -/
inductive Html where
  | text (s : String)
  | elem (name : String) (attrs : Attrs) (children : List Html)

/-- Attributes of a markup item (elements only; strings have none). -/
def Html.attrsOf : Html → Attrs
  | .text _ => {}
  | .elem _ a _ => a

/-- Content list of a markup item. -/
def Html.childrenOf : Html → List Html
  | .text _ => []
  | .elem _ _ cs => cs

mutual

/-- BeautifulSoup `e.text`: concatenation of every descendant string in
document order. -/
def Html.textContent : Html → String
  | .text s => s
  | .elem _ _ cs => Html.listText cs

/-- Text content of a content list. -/
def Html.listText : List Html → String
  | [] => ""
  | e :: r => e.textContent ++ Html.listText r

end

mutual

/-- BeautifulSoup `e.find(nm)` applied below an element: first descendant
element with the given tag name, in depth-first document order. -/
def findTag (nm : String) : Html → Option Html
  | .text _ => none
  | .elem _ _ cs => findTagList nm cs

/-- Search of a content list for `findTag`. -/
def findTagList (nm : String) : List Html → Option Html
  | [] => none
  | .text _ :: r => findTagList nm r
  | .elem n a cs :: r =>
    if n = nm then some (.elem n a cs)
    else
      match findTag nm (.elem n a cs) with
      | some x => some x
      | none => findTagList nm r

end

/-- Result of the link-resolution collaborator `parse_link` for a bare `<a>`
element: the resource kind together with the numeric id the parser reads off
the resolved handle; `other` covers unsupported and unresolved links. -/
inductive LinkRes where
  | video (aid : Int)
  | audio (auid : Int)
  | live (roomId : Int)
  | article (cvid : Int)
  | other

/-- Python `int(s)` as an `Except` computation (`ValueError` on failure). -/
def asInt (s : String) : Except Exn Int :=
  match pyInt s with
  | none => .error .valueError
  | some n => .ok n

/-- One card node per comma-separated id, `for a in aid.split(","):`. -/
def parseCardList (ctor : Int → Node) : List String → Except Exn (List Node)
  | [] => .ok []
  | s :: r => do
    let n ← asInt s
    let rest ← parseCardList ctor r
    .ok (ctor n :: rest)

/-- A content item assigned to a field expecting a string (`figcaption`
caption, anchor text): a string stays a string, an element becomes a markup
object. -/
def contentToPyStr : Html → PyStr
  | .text s => .s s
  | .elem _ _ _ => .tagObj

/-- Python `aid[2:]`. -/
def strDrop2 (s : String) : String :=
  String.mk (s.data.drop 2)

/-- The image node built by the `img-box` figure branch when the inner `<img>`
carries the `seamless` class or no class attribute: url from the re-run
`e.find("img").attrs["data-src"]` (a `KeyError` when absent), caption from the
first content item of a `<figcaption>` when present. -/
def figureImage (cs : List Html) : Except Exn (List Node) :=
  match findTagList "img" cs with
  | none => .error .attributeError
  | some img2 =>
    match img2.attrsOf.dataSrc with
    | none => .error (.keyError "data-src")
    | some u =>
      let altv :=
        match findTagList "figcaption" cs with
        | none => PyStr.s ""
        | some fc =>
          match fc.childrenOf with
          | [] => PyStr.s ""
          | c :: _ => contentToPyStr c
      .ok [Node.image (some u) altv]

/-- The card nodes built by the `img-box` figure branch from the inner image's
`aid` attribute and card class. -/
def figureCards (icl : List String) (aid : String) : Except Exn (List Node) :=
  if "video-card" ∈ icl then
    parseCardList Node.videoCard (pySplit (Char.ofNat 44) aid)
  else if "article-card" ∈ icl then do
    let n ← asInt aid
    .ok [Node.articleCard n]
  else if "fanju-card" ∈ icl then do
    let n ← asInt (strDrop2 aid)
    .ok [Node.bangumiCard n]
  else if "music-card" ∈ icl then do
    let n ← asInt (strDrop2 aid)
    .ok [Node.musicCard n]
  else if "shop-card" ∈ icl then do
    let n ← asInt (strDrop2 aid)
    .ok [Node.shopCard n]
  else if "caricature-card" ∈ icl then
    parseCardList Node.comicCard (pySplit (Char.ofNat 44) aid)
  else if "live-card" ∈ icl then do
    let n ← asInt aid
    .ok [Node.liveCard n]
  else .ok []

mutual

/-- The tag/attribute-driven dispatch of `Article.fetch_content.parse` for one
content item, returning the node sequence that the item contributes to its
parent's `node_list`.  Branches, conditions and their order follow the source;
`resolve` stands for the external `parse_link` collaborator used by inline
`<a>` elements without content. -/
def parseEl (resolve : String → LinkRes) : Html → Except Exn (List Node)
  | .text s => .ok [.text s]
  | .elem name a cs =>
    if name = "p" then do
      let align :=
        match a.style with
        | some st =>
          if strContains st "text-align: center" then "center"
          else if strContains st "text-align: right" then "right"
          else "left"
        | none => "left"
      let ch ← parseContents resolve cs
      .ok [.paragraph align ch]
    else if name = "h1" then do
      let ch ← parseContents resolve cs
      .ok [.heading ch]
    else if name = "strong" then do
      let ch ← parseContents resolve cs
      .ok [.bold ch]
    else if name = "span" then
      match a.style with
      | some style => do
        -- the line-through test and the non-empty-text splice are two
        -- independent `if` statements in the source, not an `if`/`else`
        let part1 ←
          if strContains style "text-decoration: line-through" then do
            let ch ← parseContents resolve cs
            .ok [Node.del ch]
          else .ok ([] : List Node)
        let part2 ←
          if Html.listText cs ≠ "" then parseContents resolve cs
          else .ok ([] : List Node)
        .ok (part1 ++ part2)
      | none =>
        match a.classes with
        | some classList =>
          match classList with
          | [] => .error .indexError
          | c0 :: _ =>
            if strContains c0 "font-size" then
              match findFontSize c0.data with
              | none => .error .typeError
              | some sz => do
                let ch ← parseContents resolve cs
                .ok [.fontSize sz ch]
            else if strContains c0 "color" then
              match afterFirst "color-".data c0.data with
              | none => .error .typeError
              | some rest =>
                let colorText := String.mk rest
                match colorLookup colorText with
                | none => .error (.keyError colorText)
                | some hex => do
                  let ch ← parseContents resolve cs
                  .ok [.color hex ch]
            else
              if Html.listText cs ≠ "" then parseContents resolve cs
              else .ok []
        | none => .ok []
    else if name = "blockquote" then do
      let ch ← parseContents resolve cs
      .ok [.blockquote ch]
    else if name = "figure" then
      match a.classes with
      | none => .ok []
      | some fcl =>
        if "img-box" ∈ fcl then
          match findTagList "img" cs with
          | none => .ok []
          | some imgEl =>
            match imgEl.attrsOf.classes with
            | some icl => do
              let sep := if "cut-off" ∈ icl then [Node.separator] else []
              let cards ←
                match imgEl.attrsOf.aid with
                | some aid => figureCards icl aid
                | none => .ok ([] : List Node)
              let imgs ←
                if "seamless" ∈ icl then figureImage cs
                else .ok ([] : List Node)
              .ok (sep ++ cards ++ imgs)
            | none => figureImage cs
        else if "code-box" ∈ fcl then
          match findTagList "pre" cs with
          | none => .error .attributeError
          | some preEl =>
            match preEl.attrsOf.dataLang with
            | none => .error (.keyError "data-lang")
            | some dl =>
              let lang := pyLower ((pySplit (Char.ofNat 64) dl).headD dl)
              match preEl.attrsOf.codecontent with
              | none => .error (.keyError "codecontent")
              | some cc => .ok [.code (String.mk (pyUnquote cc.data)) lang]
        else .ok []
    else if name = "ol" then do
      let ch ← parseContents resolve cs
      .ok [.ol ch]
    else if name = "li" then do
      let ch ← parseContents resolve cs
      .ok [.li ch]
    else if name = "ul" then do
      let ch ← parseContents resolve cs
      .ok [.ul ch]
    else if name = "a" then
      match cs with
      | [] =>
        match a.href with
        | none => .error (.keyError "href")
        | some href =>
          match resolve href with
          | .video aid => .ok [.videoCard aid]
          | .audio auid => .ok [.musicCard auid]
          | .live rid => .ok [.liveCard rid]
          | .article cvid => .ok [.articleCard cvid]
          | .other => .ok []
      | c :: _ =>
        match a.href with
        | none => .error (.keyError "href")
        | some href => .ok [.anchor href (contentToPyStr c)]
    else if name = "img" then
      match a.classes with
      | none => .error .typeError
      | some icl =>
        if "latex" ∈ icl then
          match a.alt with
          | none => .error (.keyError "alt")
          | some alt => .ok [.latex (String.mk (pyUnquote alt.data))]
        else .ok [.image a.dataSrc (PyStr.s "")]
    else if name = "div" then parseContents resolve cs
    else .ok []

/-- The content loop of `Article.fetch_content.parse`: nodes of the items of a
content list, concatenated in document order. -/
def parseContents (resolve : String → LinkRes) : List Html → Except Exn (List Node)
  | [] => .ok []
  | e :: r => do
    let ns ← parseEl resolve e
    let rest ← parseContents resolve r
    .ok (ns ++ rest)

end

mutual

/-- Plain-text rendering of a metadata value, standing in for
`yaml.safe_dump`; no stated property depends on the exact text, only on where
it appears in the assembled document. -/
def Json.yaml : Json → String
  | .null => "null"
  | .str s => s
  | .int n => toString n
  | .bool b => if b then "true" else "false"
  | .arr xs => "[" ++ Json.yamlList xs ++ "]"
  | .obj fs => Json.yamlFields fs
  | .tag => "object"

/-- Sequence rendering for `Json.yaml`. -/
def Json.yamlList : List Json → String
  | [] => ""
  | j :: r => j.yaml ++ "," ++ Json.yamlList r

/-- Mapping rendering for `Json.yaml`, one `key: value` line per entry. -/
def Json.yamlFields : List (String × Json) → String
  | [] => ""
  | (k, v) :: r => k ++ ": " ++ v.yaml ++ "\n" ++ Json.yamlFields r

end

/-- Serialized metadata block, `yaml.safe_dump(self.__meta, allow_unicode=True)`. -/
def metaYaml : Option Json → String
  | none => "null\n"
  | some j => j.yaml

/-- The remote article payload: the parsed `readInfo` object, split into the
markup content list (`readInfo["content"]` wrapped in the synthetic root) and
the remaining metadata (what `self.__meta` holds after `del` of `content`). -/
structure Payload where
  content : List Html
  meta : Json

/-- State of one `Article` object: parsed children, metadata, the parsed flag,
and the `get_all` cache.  `fetchCount` instruments the external collaborator,
counting how often the remote fetch actually ran; the `cache_pool` side
effects of `get_all` are outside every stated property and are not modelled. -/
structure ArticleState where
  children : List Node
  meta : Option Json
  hasParsed : Bool
  getAllData : Option Payload
  fetchCount : Nat

/-- A freshly constructed `Article`: no children, no metadata, unparsed,
nothing cached. -/
def initialArticle : ArticleState :=
  { children := [], meta := none, hasParsed := false, getAllData := none, fetchCount := 0 }

/-- The memoized fetch `Article.get_all`: `p` is the response the remote
endpoint would serve; it is fetched (counted) and cached only when no cached
payload exists, and the cached payload is returned otherwise. -/
def getAll (p : Payload) (s : ArticleState) : Payload × ArticleState :=
  match s.getAllData with
  | some d => (d, s)
  | none => (p, { s with getAllData := some p, fetchCount := s.fetchCount + 1 })

/-- The fetch-and-parse operation `Article.fetch_content`: obtain the payload
through the `get_all` cache, parse its content, then store metadata, children
and the parsed flag.  When the parse raises, the exception propagates
(the partially updated object is not threaded out; nothing below observes
it). -/
def fetchContent (resolve : String → LinkRes) (p : Payload) (s : ArticleState) :
    Except Exn ArticleState :=
  let (d, s1) := getAll p s
  match parseContents resolve d.content with
  | .error e => .error e
  | .ok cs => .ok { s1 with meta := some d.meta, children := cs, hasParsed := true }

/-- Message of the state error raised by both render methods. -/
def stateErrMsg : String := "请先调用 fetch_content()"

/-- The per-child try/except/else loop of `Article.markdown`: a child whose
render raises contributes nothing and keeps its previous state; the others
contribute their text in document order. -/
def mdFold : List Node → String × List Node
  | [] => ("", [])
  | n :: r =>
    let (rest, ns) := mdFold r
    match n.markdown with
    | .error _ => (rest, n :: ns)
    | .ok (t, n2) => (t ++ rest, n2 :: ns)

/-- The render method `Article.markdown`: a state error before parsing,
otherwise the front-matter block followed by the best-effort concatenation of
the children's markdown. -/
def articleMarkdown (s : ArticleState) : Except Exn (String × ArticleState) :=
  if s.hasParsed then
    let (content, ns) := mdFold s.children
    .ok ("---\n" ++ metaYaml s.meta ++ "\n---\n\n" ++ content, { s with children := ns })
  else .error (.apiException stateErrMsg)

/-- The render method `Article.json`: a state error before parsing, otherwise
the `type`/`meta`/`children` dictionary; a child's exception propagates (there
is no suppression on this path). -/
def articleJson (s : ArticleState) : Except Exn (Json × ArticleState) :=
  if s.hasParsed then
    match jsonChildren s.children with
    | .error e => .error e
    | .ok (js, ns) =>
      .ok (.obj [("type", .str "Article"),
                 ("meta", match s.meta with | some m => m | none => .null),
                 ("children", .arr js)],
           { s with children := ns })
  else .error (.apiException stateErrMsg)

mutual

/-- Entity-stability of a node tree: every `code` field reaches a fixpoint of
`html.unescape` after one application.  This is the proviso under which the
`json` renderer's in-place entity normalization is one-time. -/
def Node.entityStable : Node → Bool
  | .code c _ => htmlUnescapeStr (htmlUnescapeStr c) == htmlUnescapeStr c
  | .paragraph _ cs => nodesEntityStable cs
  | .heading cs => nodesEntityStable cs
  | .blockquote cs => nodesEntityStable cs
  | .italic cs => nodesEntityStable cs
  | .bold cs => nodesEntityStable cs
  | .del cs => nodesEntityStable cs
  | .underline cs => nodesEntityStable cs
  | .ul cs => nodesEntityStable cs
  | .ol cs => nodesEntityStable cs
  | .li cs => nodesEntityStable cs
  | .color _ cs => nodesEntityStable cs
  | .fontSize _ cs => nodesEntityStable cs
  | _ => true

/-- Entity-stability of every node of a list. -/
def nodesEntityStable : List Node → Bool
  | [] => true
  | n :: r => n.entityStable && nodesEntityStable r

end

/-- Spec-side description of text escaping, stated per character as the spec
words it: tabs, spaces and the non-breaking space become the `&emsp;` marker,
each of `\\ * $ < > | ~ _` gains exactly one leading backslash, and every other
character is left alone. -/
def escapeCharSpec (c : Char) : List Char :=
  if c = '\t' then "&emsp;".data
  else if c = ' ' then "&emsp;".data
  else if c = Char.ofNat 160 then "&emsp;".data
  else if c = '\\' then ['\\', '\\']
  else if c = '*' then ['\\', '*']
  else if c = '$' then ['\\', '$']
  else if c = '<' then ['\\', '<']
  else if c = '>' then ['\\', '>']
  else if c = '|' then ['\\', '|']
  else if c = '~' then ['\\', '~']
  else if c = '_' then ['\\', '_']
  else [c]

/-- Spec-side escaping of a whole character list, one character at a time. -/
def escAllSpec : List Char → List Char
  | [] => []
  | c :: r => escapeCharSpec c ++ escAllSpec r

/-- Spec-side text rendering: the per-character map applied independently to
every character, so no output of one replacement is ever re-escaped. -/
def textEscapeSpec (s : String) : String :=
  String.mk (escAllSpec s.data)

/-- Markdown texts of exactly the children whose render succeeds, in document
order: the spec's description of the best-effort document render. -/
def okMarkdowns : List Node → List String
  | [] => []
  | n :: r =>
    match n.markdown with
    | .ok (t, _) => t :: okMarkdowns r
    | .error _ => okMarkdowns r

/-- All strings of a list read as Python integers, `none` when any fails. -/
def pyIntList : List String → Option (List Int)
  | [] => some []
  | s :: r => do
    let n ← pyInt s
    let t ← pyIntList r
    some (n :: t)

/-- Article state used as the counterexample input: a parsed document whose one
Code node still contains a doubly escaped entity. -/
def unstableDocW : ArticleState :=
  { children := [.code "&amp;amp;" ""], meta := some (.obj []), hasParsed := true,
    getAllData := none, fetchCount := 1 }

/-- Dictionary returned by the first `Article.json` call on `unstableDocW`. -/
def jC1a : Json :=
  .obj [("type", .str "Article"), ("meta", .obj []),
        ("children", .arr [.obj [("type", .str "CodeNode"), ("code", .str "&amp;"),
                                 ("lang", .str "")]])]

/-- Dictionary returned by the second `Article.json` call on `unstableDocW`. -/
def jC1b : Json :=
  .obj [("type", .str "Article"), ("meta", .obj []),
        ("children", .arr [.obj [("type", .str "CodeNode"), ("code", .str "&"),
                                 ("lang", .str "")]])]

/-- A parsed document whose Code node is entity-stable after one unescape. -/
def stableDocW : ArticleState :=
  { children := [.code "&amp;" "py", .image (some "//a") (.s "")],
    meta := some (.obj [("title", .str "t")]), hasParsed := true,
    getAllData := none, fetchCount := 1 }

/-- Dictionary returned by `Article.json` on `stableDocW`. -/
def jC1w : Json :=
  .obj [("type", .str "Article"), ("meta", .obj [("title", .str "t")]),
        ("children", .arr [.obj [("type", .str "CodeNode"), ("code", .str "&"),
                                 ("lang", .str "py")],
                           .obj [("type", .str "ImageNode"), ("url", .str "https://a"),
                                 ("alt", .str "")]])]

/-- State of `stableDocW` after its first `Article.json` call. -/
def sC1w : ArticleState :=
  { stableDocW with children := [.code "&" "py", .image (some "https://a") (.s "")] }

/-- Payload whose content holds one protocol-relative image. -/
def payloadC2 : Payload :=
  { content := [.elem "img" { classes := some [], dataSrc := some "//i" } []],
    meta := .obj [] }

/-- State after the first `fetch_content` of `payloadC2`. -/
def sC2a : ArticleState :=
  { children := [.image (some "//i") (.s "")], meta := some (.obj []), hasParsed := true,
    getAllData := some payloadC2, fetchCount := 1 }

/-- Dictionary returned by `Article.json` on `sC2a`. -/
def jC2 : Json :=
  .obj [("type", .str "Article"), ("meta", .obj []),
        ("children", .arr [.obj [("type", .str "ImageNode"), ("url", .str "https://i"),
                                 ("alt", .str "")]])]

/-- State of `sC2a` after rendering once: the image url is normalized in
place. -/
def sC2b : ArticleState :=
  { sC2a with children := [.image (some "https://i") (.s "")] }

/-- A one-paragraph payload. -/
def payloadW : Payload :=
  { content := [.elem "p" {} [.text "hi"]], meta := .obj [("title", .str "t")] }

/-- State after fetching and parsing `payloadW` from a fresh article. -/
def fetchedW : ArticleState :=
  { children := [.paragraph "left" [.text "hi"]], meta := some (.obj [("title", .str "t")]),
    hasParsed := true, getAllData := some payloadW, fetchCount := 1 }

/-- A parsed document whose middle child (an image with a `None` url) raises on
render. -/
def docW6 : ArticleState :=
  { children := [.text "a", .image none (.s ""), .text "b"],
    meta := some (.obj [("title", .str "t")]), hasParsed := true,
    getAllData := none, fetchCount := 1 }

theorem exceptOk_bind {α β γ : Type} (a : α) (f : α → Except γ β) :
    (Except.ok a : Except γ α) >>= f = f a := rfl

theorem charRepl_append (p : Char) (rep a b : List Char) :
    charRepl p rep (a ++ b) = charRepl p rep a ++ charRepl p rep b := by
  induction a with
  | nil => rfl
  | cons c t ih => simp [charRepl, ih]

theorem escPipe_cons (c : Char) (l : List Char) :
    escPipe (c :: l) = escPipe [c] ++ escPipe l := by
  have h : c :: l = [c] ++ l := rfl
  rw [h]
  simp only [escPipe, charRepl_append]

theorem escPipe_singleton (c : Char) : escPipe [c] = escapeCharSpec c := by
  by_cases h1 : c = '\t'
  · subst h1; rfl
  by_cases h2 : c = ' '
  · subst h2; rfl
  by_cases h3 : c = Char.ofNat 160
  · subst h3; rfl
  by_cases h4 : c = '\\'
  · subst h4; rfl
  by_cases h5 : c = '*'
  · subst h5; rfl
  by_cases h6 : c = '$'
  · subst h6; rfl
  by_cases h7 : c = '<'
  · subst h7; rfl
  by_cases h8 : c = '>'
  · subst h8; rfl
  by_cases h9 : c = '|'
  · subst h9; rfl
  by_cases h10 : c = '~'
  · subst h10; rfl
  by_cases h11 : c = '_'
  · subst h11; rfl
  simp [escPipe, charRepl, escapeCharSpec, h1, h2, h3, h4, h5, h6, h7, h8, h9, h10, h11]

theorem escPipe_eq_spec (l : List Char) : escPipe l = escAllSpec l := by
  induction l with
  | nil => rfl
  | cons c r ih => rw [escPipe_cons, escPipe_singleton, ih]; rfl

theorem mdFold_fst (l : List Node) : (mdFold l).1 = concatAll (okMarkdowns l) := by
  induction l with
  | nil => rfl
  | cons n r ih =>
    simp only [mdFold, okMarkdowns]
    cases h : n.markdown with
    | error e => simpa [h] using ih
    | ok p => simp [h, concatAll, ih]

theorem urlScheme_https (u : String) : urlScheme ("https:" ++ u) = "https" := rfl

theorem parseCardList_ok (ctor : Int → Node) :
    ∀ (l : List String) (ids : List Int), pyIntList l = some ids →
      parseCardList ctor l = .ok (ids.map ctor) := by
  intro l
  induction l with
  | nil =>
    intro ids h
    simp only [pyIntList] at h
    cases h
    rfl
  | cons s r ih =>
    intro ids h
    simp only [pyIntList, Option.bind_eq_bind, Option.bind_eq_some] at h
    obtain ⟨n, hn, t, ht, hid⟩ := h
    injection hid with hid
    subst hid
    simp [parseCardList, asInt, hn, ih t ht, exceptOk_bind]

theorem json_const_case {A : Json} {m : Node} (j : Json) (n2 : Node)
    (hj : m.json = .ok (j, n2)) (hm : m.json = .ok (A, m)) : n2.json = .ok (j, n2) := by
  rw [hm] at hj
  rw [Except.ok.injEq, Prod.mk.injEq] at hj
  obtain ⟨h1, h2⟩ := hj
  subst h1
  subst h2
  exact hm

theorem json_image_stable (url : Option String) (alt : PyStr) (j : Json) (n2 : Node)
    (hj : Node.json (.image url alt) = .ok (j, n2)) : n2.json = .ok (j, n2) := by
  cases url with
  | none =>
    simp only [Node.json] at hj
    exact Except.noConfusion hj
  | some u =>
    have hvfix : (if urlScheme (if urlScheme u = "" then "https:" ++ u else u) = ""
        then "https:" ++ (if urlScheme u = "" then "https:" ++ u else u)
        else (if urlScheme u = "" then "https:" ++ u else u))
        = (if urlScheme u = "" then "https:" ++ u else u) := by
      by_cases hsch : urlScheme u = ""
      · simp [hsch, urlScheme_https]
      · simp [hsch]
    simp only [Node.json] at hj
    generalize hv : (if urlScheme u = "" then "https:" ++ u else u) = v at hj hvfix
    rw [Except.ok.injEq, Prod.mk.injEq] at hj
    obtain ⟨h1, h2⟩ := hj
    subst h1
    subst h2
    simp only [Node.json]
    rw [hvfix]

theorem json_code_stable (c lang : String) (j : Json) (n2 : Node)
    (hstable : htmlUnescapeStr (htmlUnescapeStr c) = htmlUnescapeStr c)
    (hj : Node.json (.code c lang) = .ok (j, n2)) : n2.json = .ok (j, n2) := by
  simp only [Node.json] at hj
  rw [Except.ok.injEq, Prod.mk.injEq] at hj
  obtain ⟨h1, h2⟩ := hj
  subst h1
  subst h2
  simp only [Node.json, hstable]

theorem json_container_stable
    (mk : List Node → Node) (out : List Json → Json) (cs : List Node)
    (hmk : ∀ l, Node.json (mk l) = Bind.bind (jsonChildren l) (fun p => .ok (out p.1, mk p.2)))
    (rec : ∀ js l2, jsonChildren cs = .ok (js, l2) → jsonChildren l2 = .ok (js, l2))
    (j : Json) (n2 : Node) (hj : Node.json (mk cs) = .ok (j, n2)) :
    n2.json = .ok (j, n2) := by
  rw [hmk] at hj
  cases hc : jsonChildren cs with
  | error e =>
    rw [hc] at hj
    exact Except.noConfusion
      (hj : (Except.error e : Except Exn (Json × Node)) = .ok (j, n2))
  | ok p =>
    rw [hc] at hj
    have hj2 : (Except.ok (out p.1, mk p.2) : Except Exn (Json × Node)) = .ok (j, n2) := hj
    rw [Except.ok.injEq, Prod.mk.injEq] at hj2
    obtain ⟨h1, h2⟩ := hj2
    subst h1
    subst h2
    have hrec := rec p.1 p.2 (by rw [hc])
    rw [hmk, hrec]
    rfl

mutual

theorem json_twice_of_stable : ∀ n : Node, n.entityStable = true →
    ∀ j n2, n.json = .ok (j, n2) → n2.json = .ok (j, n2)
  | .text t, _, j, n2, hj => json_const_case j n2 hj rfl
  | .paragraph al cs, h, j, n2, hj =>
    json_container_stable (Node.paragraph al)
      (fun js => .obj [("type", .str "ParagraphNode"), ("children", .arr js)]) cs
      (fun _ => rfl)
      (fun js l2 hc =>
        jsonChildren_twice_of_stable cs (by simpa [Node.entityStable] using h) js l2 hc)
      j n2 hj
  | .heading cs, h, j, n2, hj =>
    json_container_stable Node.heading
      (fun js => .obj [("type", .str "HeadingNode"), ("children", .arr js)]) cs
      (fun _ => rfl)
      (fun js l2 hc =>
        jsonChildren_twice_of_stable cs (by simpa [Node.entityStable] using h) js l2 hc)
      j n2 hj
  | .blockquote cs, h, j, n2, hj =>
    json_container_stable Node.blockquote
      (fun js => .obj [("type", .str "BlockquoteNode"), ("children", .arr js)]) cs
      (fun _ => rfl)
      (fun js l2 hc =>
        jsonChildren_twice_of_stable cs (by simpa [Node.entityStable] using h) js l2 hc)
      j n2 hj
  | .italic cs, h, j, n2, hj =>
    json_container_stable Node.italic
      (fun js => .obj [("type", .str "ItalicNode"), ("children", .arr js)]) cs
      (fun _ => rfl)
      (fun js l2 hc =>
        jsonChildren_twice_of_stable cs (by simpa [Node.entityStable] using h) js l2 hc)
      j n2 hj
  | .bold cs, h, j, n2, hj =>
    json_container_stable Node.bold
      (fun js => .obj [("type", .str "BoldNode"), ("children", .arr js)]) cs
      (fun _ => rfl)
      (fun js l2 hc =>
        jsonChildren_twice_of_stable cs (by simpa [Node.entityStable] using h) js l2 hc)
      j n2 hj
  | .del cs, h, j, n2, hj =>
    json_container_stable Node.del
      (fun js => .obj [("type", .str "DelNode"), ("children", .arr js)]) cs
      (fun _ => rfl)
      (fun js l2 hc =>
        jsonChildren_twice_of_stable cs (by simpa [Node.entityStable] using h) js l2 hc)
      j n2 hj
  | .underline cs, h, j, n2, hj =>
    json_container_stable Node.underline
      (fun js => .obj [("type", .str "UnderlineNode"), ("children", .arr js)]) cs
      (fun _ => rfl)
      (fun js l2 hc =>
        jsonChildren_twice_of_stable cs (by simpa [Node.entityStable] using h) js l2 hc)
      j n2 hj
  | .ul cs, h, j, n2, hj =>
    json_container_stable Node.ul
      (fun js => .obj [("type", .str "UlNode"), ("children", .arr js)]) cs
      (fun _ => rfl)
      (fun js l2 hc =>
        jsonChildren_twice_of_stable cs (by simpa [Node.entityStable] using h) js l2 hc)
      j n2 hj
  | .ol cs, h, j, n2, hj =>
    json_container_stable Node.ol
      (fun js => .obj [("type", .str "OlNode"), ("children", .arr js)]) cs
      (fun _ => rfl)
      (fun js l2 hc =>
        jsonChildren_twice_of_stable cs (by simpa [Node.entityStable] using h) js l2 hc)
      j n2 hj
  | .li cs, h, j, n2, hj =>
    json_container_stable Node.li
      (fun js => .obj [("type", .str "LiNode"), ("children", .arr js)]) cs
      (fun _ => rfl)
      (fun js l2 hc =>
        jsonChildren_twice_of_stable cs (by simpa [Node.entityStable] using h) js l2 hc)
      j n2 hj
  | .color col cs, h, j, n2, hj =>
    json_container_stable (Node.color col)
      (fun js => .obj [("type", .str "ColorNode"), ("color", .str col),
                       ("children", .arr js)]) cs
      (fun _ => rfl)
      (fun js l2 hc =>
        jsonChildren_twice_of_stable cs (by simpa [Node.entityStable] using h) js l2 hc)
      j n2 hj
  | .fontSize sz cs, h, j, n2, hj =>
    json_container_stable (Node.fontSize sz)
      (fun js => .obj [("type", .str "FontSizeNode"), ("size", .int sz),
                       ("children", .arr js)]) cs
      (fun _ => rfl)
      (fun js l2 hc =>
        jsonChildren_twice_of_stable cs (by simpa [Node.entityStable] using h) js l2 hc)
      j n2 hj
  | .image url alt, _, j, n2, hj => json_image_stable url alt j n2 hj
  | .latex c, _, j, n2, hj => json_const_case j n2 hj rfl
  | .code c lang, h, j, n2, hj =>
    json_code_stable c lang j n2 (by simpa [Node.entityStable] using h) hj
  | .videoCard aid, _, j, n2, hj => json_const_case j n2 hj rfl
  | .articleCard cvid, _, j, n2, hj => json_const_case j n2 hj rfl
  | .bangumiCard epid, _, j, n2, hj => json_const_case j n2 hj rfl
  | .musicCard auid, _, j, n2, hj => json_const_case j n2 hj rfl
  | .shopCard pwid, _, j, n2, hj => json_const_case j n2 hj rfl
  | .comicCard mcid, _, j, n2, hj => json_const_case j n2 hj rfl
  | .liveCard roomId, _, j, n2, hj => json_const_case j n2 hj rfl
  | .anchor url t, _, j, n2, hj => json_const_case j n2 hj rfl
  | .separator, _, j, n2, hj => json_const_case j n2 hj rfl

theorem jsonChildren_twice_of_stable : ∀ l : List Node, nodesEntityStable l = true →
    ∀ js l2, jsonChildren l = .ok (js, l2) → jsonChildren l2 = .ok (js, l2)
  | [], _, js, l2, hj => by
    simp only [jsonChildren] at hj
    rw [Except.ok.injEq, Prod.mk.injEq] at hj
    obtain ⟨h1, h2⟩ := hj
    subst h1
    subst h2
    rfl
  | n :: r, h, js, l2, hj => by
    rw [nodesEntityStable, Bool.and_eq_true] at h
    simp only [jsonChildren] at hj
    cases hn : n.json with
    | error e =>
      rw [hn] at hj
      exact Except.noConfusion
        (hj : (Except.error e : Except Exn (List Json × List Node)) = .ok (js, l2))
    | ok p =>
      obtain ⟨j1, n21⟩ := p
      rw [hn] at hj
      cases hr : jsonChildren r with
      | error e =>
        rw [hr] at hj
        exact Except.noConfusion
          (hj : (Except.error e : Except Exn (List Json × List Node)) = .ok (js, l2))
      | ok q =>
        obtain ⟨js1, r2⟩ := q
        rw [hr] at hj
        have hj2 : (Except.ok (j1 :: js1, n21 :: r2) :
            Except Exn (List Json × List Node)) = .ok (js, l2) := hj
        rw [Except.ok.injEq, Prod.mk.injEq] at hj2
        obtain ⟨h1, h2⟩ := hj2
        subst h1
        subst h2
        have ha := json_twice_of_stable n h.1 j1 n21 hn
        have hb := jsonChildren_twice_of_stable r h.2 js1 r2 hr
        simp only [jsonChildren]
        rw [ha, hb]
        rfl

end

/-- C1 (amended): for a parsed document whose Code nodes are entity-stable
after one unescape (no nested character references), rendering `Article.json`
twice yields identical results: the second call returns exactly the first
call's dictionary and leaves the document state unchanged. -/
theorem json_render_idempotent_of_entityStable (s : ArticleState)
    (hstable : nodesEntityStable s.children = true)
    (j : Json) (s1 : ArticleState) (hj : articleJson s = .ok (j, s1)) :
    articleJson s1 = .ok (j, s1) := by
  by_cases hp : s.hasParsed
  · rw [articleJson, if_pos hp] at hj
    cases hc : jsonChildren s.children with
    | error e =>
      rw [hc] at hj
      exact Except.noConfusion hj
    | ok p =>
      obtain ⟨js, ns⟩ := p
      rw [hc] at hj
      rw [Except.ok.injEq, Prod.mk.injEq] at hj
      obtain ⟨h1, h2⟩ := hj
      subst h1
      subst h2
      have hstep := jsonChildren_twice_of_stable s.children hstable js ns hc
      rw [articleJson, if_pos (show ({ s with children := ns } : ArticleState).hasParsed from hp)]
      rw [show ({ s with children := ns } : ArticleState).children = ns from rfl, hstep]
  · rw [articleJson, if_neg hp] at hj
    exact Except.noConfusion hj

theorem json_render_idempotent_witness :
    nodesEntityStable stableDocW.children = true ∧
      articleJson stableDocW = .ok (jC1w, sC1w) ∧
      articleJson sC1w = .ok (jC1w, sC1w) :=
  ⟨rfl, rfl, json_render_idempotent_of_entityStable stableDocW rfl jC1w sC1w rfl⟩

/-- C1 counterexample: on a document whose Code node holds `&amp;amp;`, the
second `Article.json` call returns a different dictionary than the first (the
code field is unescaped a second time). -/
theorem json_render_second_call_differs :
    articleJson unstableDocW =
        .ok (jC1a, { unstableDocW with children := [.code "&amp;" ""] }) ∧
      articleJson { unstableDocW with children := [.code "&amp;" ""] } =
        .ok (jC1b, { unstableDocW with children := [.code "&" ""] }) ∧
      jC1a ≠ jC1b :=
  ⟨rfl, rfl, by simp [jC1a, jC1b]⟩

/-- C2 (amended): after a successful `fetch_content`, an immediately repeated
call re-fetches nothing and deterministically re-parses the cached payload,
returning the state unchanged (in particular the fetch count stays put); the
node tree and metadata are overwritten by the fresh parse rather than left
untouched, which is observable only when nodes were mutated in between. -/
theorem fetch_content_second_call (resolve : String → LinkRes) (p : Payload)
    (s s1 : ArticleState) (h : fetchContent resolve p s = .ok s1) :
    fetchContent resolve p s1 = .ok s1 := by
  cases hga : s.getAllData with
  | some d =>
    simp only [fetchContent, getAll, hga] at h
    cases hpc : parseContents resolve d.content with
    | error e =>
      rw [hpc] at h
      exact Except.noConfusion h
    | ok cs =>
      rw [hpc] at h
      rw [Except.ok.injEq] at h
      subst h
      simp only [fetchContent, getAll, hga, hpc]
  | none =>
    simp only [fetchContent, getAll, hga] at h
    cases hpc : parseContents resolve p.content with
    | error e =>
      rw [hpc] at h
      exact Except.noConfusion h
    | ok cs =>
      rw [hpc] at h
      rw [Except.ok.injEq] at h
      subst h
      simp only [fetchContent, getAll, hpc]

theorem fetch_content_second_call_witness :
    fetchContent (fun _ => .other) payloadW initialArticle = .ok fetchedW ∧
      fetchContent (fun _ => .other) payloadW fetchedW = .ok fetchedW :=
  ⟨rfl, fetch_content_second_call (fun _ => .other) payloadW initialArticle fetchedW rfl⟩

/-- C2 counterexample: a render between two `fetch_content` calls mutates a
node in place (url normalization); the second `fetch_content` overwrites the
tree with a fresh parse instead of leaving it as it is. -/
theorem fetch_content_reparse_overwrites :
    fetchContent (fun _ => .other) payloadC2 initialArticle = .ok sC2a ∧
      articleJson sC2a = .ok (jC2, sC2b) ∧
      fetchContent (fun _ => .other) payloadC2 sC2b = .ok sC2a ∧
      sC2a.children ≠ sC2b.children :=
  ⟨rfl, rfl, rfl, by simp [sC2a, sC2b]⟩

/-- C3: evaluation of the parser at a line-through span with non-empty text:
the source emits the Del node and then, because the non-empty-text splice is
not an `else` branch, additionally splices the span's parsed children into the
parent sequence, duplicating them. -/
theorem line_through_span_duplicates_children :
    parseEl (fun _ => .other)
        (.elem "span" { style := some "text-decoration: line-through" } [.text "x"]) =
      .ok [.del [.text "x"], .text "x"] := rfl

/-- C4: on an article whose content has not been fetched and parsed, both
render methods raise the state error (`ApiException`) and return no value. -/
theorem render_before_parse_state_error (s : ArticleState) (h : s.hasParsed = false) :
    articleMarkdown s = .error (.apiException stateErrMsg) ∧
      articleJson s = .error (.apiException stateErrMsg) := by
  constructor
  · simp [articleMarkdown, h]
  · simp [articleJson, h]

theorem render_before_parse_state_error_witness :
    initialArticle.hasParsed = false ∧
      articleMarkdown initialArticle = .error (.apiException stateErrMsg) ∧
      articleJson initialArticle = .error (.apiException stateErrMsg) :=
  ⟨rfl, (render_before_parse_state_error initialArticle rfl).1,
        (render_before_parse_state_error initialArticle rfl).2⟩

/-- C5: a span whose first class names a color resolves the name through
`ARTICLE_COLOR_MAP`: an absent name raises immediately (the `KeyError`
carrying the color name), and a present name yields a Color node carrying the
table's hex value over the recursively parsed children. -/
theorem span_color_lookup (resolve : String → LinkRes) (a : Attrs) (cs : List Html)
    (c0 : String) (rest : List String) (nameCs : List Char)
    (hstyle : a.style = none) (hclass : a.classes = some (c0 :: rest))
    (hfs : strContains c0 "font-size" = false)
    (hcol : strContains c0 "color" = true)
    (hname : afterFirst "color-".data c0.data = some nameCs) :
    (colorLookup (String.mk nameCs) = none →
        parseEl resolve (.elem "span" a cs) = .error (.keyError (String.mk nameCs))) ∧
      ∀ hex ch, colorLookup (String.mk nameCs) = some hex →
        parseContents resolve cs = .ok ch →
        parseEl resolve (.elem "span" a cs) = .ok [.color hex ch] := by
  constructor
  · intro hnone
    simp [parseEl, hstyle, hclass, hfs, hcol, hname, hnone]
  · intro hex ch hsome hch
    simp [parseEl, hstyle, hclass, hfs, hcol, hname, hsome, hch, exceptOk_bind]

theorem span_color_lookup_witness :
    parseEl (fun _ => .other)
        (.elem "span" { classes := some ["color-unknown-name"] } [.text "x"]) =
        .error (.keyError "unknown-name") ∧
      parseEl (fun _ => .other)
        (.elem "span" { classes := some ["color-blue-01"] } [.text "x"]) =
        .ok [.color "56c1fe" [.text "x"]] :=
  ⟨(span_color_lookup (fun _ => .other) { classes := some ["color-unknown-name"] }
      [.text "x"] "color-unknown-name" [] "unknown-name".data
      rfl rfl rfl rfl rfl).1 rfl,
   (span_color_lookup (fun _ => .other) { classes := some ["color-blue-01"] }
      [.text "x"] "color-blue-01" [] "blue-01".data
      rfl rfl rfl rfl rfl).2 "56c1fe" [.text "x"] rfl rfl⟩

/-- C6: whenever the article is parsed, the document-level markdown render
completes without raising and returns the front-matter block followed by the
concatenated markdown of exactly the children whose render succeeds, in
document order (a child whose render raises is silently skipped). -/
theorem document_markdown_best_effort (s : ArticleState) (h : s.hasParsed = true) :
    articleMarkdown s =
      .ok ("---\n" ++ metaYaml s.meta ++ "\n---\n\n" ++ concatAll (okMarkdowns s.children),
           { s with children := (mdFold s.children).2 }) := by
  rw [articleMarkdown, if_pos h, ← mdFold_fst]

theorem document_markdown_best_effort_witness :
    docW6.hasParsed = true ∧
      Node.markdown (Node.image none (.s "")) = .error .typeError ∧
      articleMarkdown docW6 =
        .ok ("---\n" ++ metaYaml docW6.meta ++ "\n---\n\n"
              ++ concatAll (okMarkdowns docW6.children),
             { docW6 with children := (mdFold docW6.children).2 }) :=
  ⟨rfl, rfl, document_markdown_best_effort docW6 rfl⟩

/-- C7: the markdown render of a Text node equals the spec-side per-character
map: every tab, space and non-breaking space becomes the `&emsp;` marker, and
every occurrence of each of `\\ * $ < > | ~ _` gains exactly one leading
backslash — no character, including the introduced backslashes, is escaped
twice. -/
theorem text_markdown_escape_spec (s : String) :
    Node.markdown (.text s) = .ok (textEscapeSpec s, .text s) := by
  have h : textMarkdown s = textEscapeSpec s := by
    rw [textMarkdown, textEscapeSpec, escPipe_eq_spec]
  show Except.ok (textMarkdown s, Node.text s) = _
  rw [h]

/-- C8: markdown and JSON rendering of an Image node whose url lacks a scheme
both yield the url with `https:` prepended, and the normalization is stable:
on the normalized node both renders return the same output and change
nothing, in whatever order they are called. -/
theorem image_url_normalization (u a : String) (h : urlScheme u = "") :
    Node.markdown (.image (some u) (.s a)) =
        .ok ("![" ++ escBracket a ++ "](" ++ ("https:" ++ u) ++ ")\n\n",
             .image (some ("https:" ++ u)) (.s a)) ∧
      Node.json (.image (some u) (.s a)) =
        .ok (.obj [("type", .str "ImageNode"), ("url", .str ("https:" ++ u)),
                   ("alt", .str a)],
             .image (some ("https:" ++ u)) (.s a)) ∧
      Node.markdown (.image (some ("https:" ++ u)) (.s a)) =
        .ok ("![" ++ escBracket a ++ "](" ++ ("https:" ++ u) ++ ")\n\n",
             .image (some ("https:" ++ u)) (.s a)) ∧
      Node.json (.image (some ("https:" ++ u)) (.s a)) =
        .ok (.obj [("type", .str "ImageNode"), ("url", .str ("https:" ++ u)),
                   ("alt", .str a)],
             .image (some ("https:" ++ u)) (.s a)) := by
  refine ⟨?_, ?_, ?_, ?_⟩
  · simp [Node.markdown, h]
  · simp [Node.json, h, PyStr.toJson]
  · simp [Node.markdown, urlScheme_https]
  · simp [Node.json, urlScheme_https, PyStr.toJson]

theorem image_url_normalization_witness :
    urlScheme "//example.com/x.png" = "" ∧
      Node.markdown (.image (some "//example.com/x.png") (.s "")) =
        .ok ("![](https://example.com/x.png)\n\n",
             .image (some "https://example.com/x.png") (.s "")) ∧
      Node.json (.image (some "//example.com/x.png") (.s "")) =
        .ok (.obj [("type", .str "ImageNode"),
                   ("url", .str "https://example.com/x.png"), ("alt", .str "")],
             .image (some "https://example.com/x.png") (.s "")) :=
  ⟨rfl, (image_url_normalization "//example.com/x.png" "" rfl).1,
        (image_url_normalization "//example.com/x.png" "" rfl).2.1⟩

/-- C9: a `figure` with class `img-box` whose inner image carries a
`video-card` class and an `aid` attribute listing `n` numeric ids produces
exactly `n` VideoCard nodes, one per id, in the order the ids appear. -/
theorem video_card_aid_list (resolve : String → LinkRes) (a : Attrs) (cs : List Html)
    (fcl : List String) (imgEl : Html) (icl : List String) (aidStr : String)
    (ids : List Int)
    (hfcl : a.classes = some fcl) (hbox : "img-box" ∈ fcl)
    (himg : findTagList "img" cs = some imgEl)
    (hicl : imgEl.attrsOf.classes = some icl)
    (hvc : "video-card" ∈ icl) (hco : "cut-off" ∉ icl) (hsl : "seamless" ∉ icl)
    (haid : imgEl.attrsOf.aid = some aidStr)
    (hids : pyIntList (pySplit (Char.ofNat 44) aidStr) = some ids) :
    parseEl resolve (.elem "figure" a cs) = .ok (ids.map Node.videoCard) := by
  simp [parseEl, hfcl, hbox, himg, hicl, hvc, hco, hsl, haid, figureCards,
        parseCardList_ok Node.videoCard _ _ hids, exceptOk_bind]

theorem video_card_aid_list_witness :
    pyIntList (pySplit (Char.ofNat 44) "100,200") = some [100, 200] ∧
      parseEl (fun _ => .other)
          (.elem "figure" { classes := some ["img-box"] }
            [.elem "img" { classes := some ["video-card"], aid := some "100,200" } []]) =
        .ok [.videoCard 100, .videoCard 200] :=
  ⟨rfl,
   video_card_aid_list (fun _ => .other) { classes := some ["img-box"] }
     [.elem "img" { classes := some ["video-card"], aid := some "100,200" } []]
     ["img-box"] (.elem "img" { classes := some ["video-card"], aid := some "100,200" } [])
     ["video-card"] "100,200" [100, 200]
     rfl (by decide) rfl rfl (by decide) (by decide) (by decide) rfl rfl⟩

/-- C10: a span carrying neither a `style` nor a `class` attribute contributes
nothing at all: no node is emitted and its content, children included, is
dropped from the output sequence. -/
theorem span_without_attrs_dropped (resolve : String → LinkRes) (a : Attrs)
    (cs : List Html) (h1 : a.style = none) (h2 : a.classes = none) :
    parseEl resolve (.elem "span" a cs) = .ok [] := by
  simp [parseEl, h1, h2]

theorem span_without_attrs_dropped_witness :
    ({} : Attrs).style = none ∧ ({} : Attrs).classes = none ∧
      parseEl (fun _ => .other) (.elem "span" {} [.text "x"]) = .ok [] :=
  ⟨rfl, rfl, span_without_attrs_dropped (fun _ => .other) {} [.text "x"] rfl rfl⟩
